import Mathlib

/-!
Shallow embedding of the `gobpf-conntracer` repository: the streaming BPF
program (`src/bpf/conntracer_streaming.bpf.c`) and the userspace tracers
(`src/tracer.go`, `src/tracer_streaming.go`).

Machine integers are modelled as `Nat` (ports are 16-bit values, addresses
32-bit); byte-order conversion (`bpf_htons`) is the explicit 16-bit byte swap.
BPF maps are modelled as functions to `Option`; the ring-buffer reservation,
which can fail, is an `Option FlowRecord` input holding the reserved (not zeroed)
record.
-/

/-- The 16-bit byte swap: `bpf_htons` / `bpf_ntohs` / `ntohs` on a little-endian
host exchange the two bytes of a 16-bit value. -/
def swap16 (p : Nat) : Nat := (p % 256) * 256 + (p / 256) % 256

def bpf_htons (p : Nat) : Nat := swap16 p

def ntohs (p : Nat) : Nat := swap16 p

def IPPROTO_TCP : Nat := 6

def IPPROTO_UDP : Nat := 17

/-- FlowRecord direction tag (`flow_direction` in `conntracer.h`, mirrored by the Go
constants `FlowUnknown`/`FlowActive`/`FlowPassive`). -/
inductive FlowDirection where
  | unknown
  | active
  | passive
deriving DecidableEq

/-- The socket fields the probes read from `struct sock.__sk_common`.
`skc_num` is the local port in host byte order; `skc_dport` is the remote
port in network byte order. -/
structure Sock where
  skc_rcv_saddr : Nat
  skc_daddr : Nat
  skc_dport : Nat
  skc_num : Nat
deriving DecidableEq

/-- The streaming flow record (`struct flow`, declared in the repository
header `conntracer.h` which is not under src/; its fields are exactly those
written by `insert_flows` and `insert_udp_flows` in
`conntracer_streaming.bpf.c`). -/
structure FlowRecord where
  ts_us : Nat
  saddr : Nat
  daddr : Nat
  lport : Nat
  direction : FlowDirection
  l4_proto : Nat
  pid : Nat
  task : List Nat
deriving DecidableEq

/-- Function `insert_flows` (TCP emission): fills the reserved ring-buffer record.
It writes `ts_us`, `saddr`, `daddr`, `lport`, `pid`, `direction` and `task`;
it does not write `l4_proto`, which therefore keeps the reserved record's
prior content. `now` is `bpf_ktime_get_ns()`. -/
def insert_flows (reserved : FlowRecord) (now : Nat) (pid : Nat) (sk : Sock)
    (lport : Nat) (direction : FlowDirection) (comm : List Nat) : FlowRecord :=
  { reserved with
    ts_us := now / 1000
    saddr := sk.skc_rcv_saddr
    daddr := sk.skc_daddr
    lport := lport
    pid := pid
    direction := direction
    task := comm }

/-- Struct `ipv4_flow_key` as populated by the UDP probes. -/
structure Ipv4FlowKey where
  saddr : Nat
  daddr : Nat
  lport : Nat
  direction : FlowDirection
  l4_proto : Nat
deriving DecidableEq

/-- Function `insert_udp_flows` (UDP emission): fills every field of the reserved
record from the flow key. -/
def insert_udp_flows (reserved : FlowRecord) (now : Nat) (pid : Nat)
    (key : Ipv4FlowKey) (comm : List Nat) : FlowRecord :=
  { reserved with
    ts_us := now / 1000
    saddr := key.saddr
    daddr := key.daddr
    lport := key.lport
    direction := key.direction
    l4_proto := key.l4_proto
    pid := pid
    task := comm }

/-- Probe `kprobe/tcp_v4_connect`: store the socket pointer under the current
thread id in `tcp_connect_sockets`. -/
def tcp_v4_connect (m : Nat → Option Sock) (tid : Nat) (sk : Sock) :
    Nat → Option Sock :=
  fun t => if t = tid then some sk else m t

/-- Probe `kretprobe/tcp_v4_connect` (`tcp_v4_connect_ret`): look up the thread's
stored socket; if absent, return. If the syscall return is non-zero, skip
emission; otherwise emit an ACTIVE flow whose `lport` is the socket's
`skc_dport`. In both cases the map entry is deleted before returning.
Returns the updated `tcp_connect_sockets` map and the emitted record. -/
def tcp_v4_connect_ret (m : Nat → Option Sock) (tid pid : Nat) (ret : Int)
    (reserved : Option FlowRecord) (now : Nat) (comm : List Nat) :
    (Nat → Option Sock) × Option FlowRecord :=
  match m tid with
  | none => (m, none)
  | some sk =>
    if ret = 0 then
      ((fun t => if t = tid then none else m t),
        reserved.map (fun r =>
          insert_flows r now pid sk sk.skc_dport FlowDirection.active comm))
    else
      ((fun t => if t = tid then none else m t), none)

/-- Probe `kretprobe/inet_csk_accept` (`inet_csk_accept_ret`): if the returned
socket is non-null, emit a PASSIVE flow whose `lport` is the socket's local
port `skc_num`. -/
def inet_csk_accept_ret (pid : Nat) (sk : Option Sock)
    (reserved : Option FlowRecord) (now : Nat) (comm : List Nat) : Option FlowRecord :=
  match sk with
  | none => none
  | some s =>
    reserved.map (fun r =>
      insert_flows r now pid s s.skc_num FlowDirection.passive comm)

/-- Struct `flowi4` fields read by `ip_make_skb`. -/
structure Flowi4 where
  saddr : Nat
  daddr : Nat
deriving DecidableEq

/-- Probe `kprobe/ip_make_skb` (UDP send path): look the socket's local port
(`skc_num`, host byte order) up in `udp_port_binding`. On a hit the flow is
PASSIVE with `lport = bpf_htons(skc_num)` and the flowi4 addresses swapped;
on a miss it is ACTIVE with `lport = skc_dport` and the addresses as-is. -/
def ip_make_skb (udp_port_binding : Nat → Option Nat) (pid : Nat)
    (sk : Sock) (flw4 : Flowi4) (reserved : Option FlowRecord) (now : Nat)
    (comm : List Nat) : Option FlowRecord :=
  let sport := sk.skc_num
  let dport := sk.skc_dport
  let flow_key : Ipv4FlowKey :=
    match udp_port_binding sport with
    | some _ =>
      { saddr := flw4.daddr
        daddr := flw4.saddr
        direction := FlowDirection.passive
        lport := bpf_htons sport
        l4_proto := IPPROTO_UDP }
    | none =>
      { saddr := flw4.saddr
        daddr := flw4.daddr
        direction := FlowDirection.active
        lport := dport
        l4_proto := IPPROTO_UDP }
  reserved.map (fun r => insert_udp_flows r now pid flow_key comm)

/-- UDP header fields (network byte order). -/
structure UdpHdr where
  source : Nat
  dest : Nat
deriving DecidableEq

/-- IP header fields. -/
structure IpHdr where
  saddr : Nat
  daddr : Nat
deriving DecidableEq

/-- Probe `kprobe/skb_consume_udp` (UDP receive path): parse the UDP/IP headers,
convert the destination port with `bpf_htons` and look it up in
`udp_port_binding`. On a hit the flow is PASSIVE with `lport` the header's
destination port and the header addresses as-is; on a miss it is ACTIVE
with `lport` the header's source port and the addresses swapped. -/
def skb_consume_udp (udp_port_binding : Nat → Option Nat) (pid : Nat)
    (udph : UdpHdr) (iph : IpHdr) (reserved : Option FlowRecord) (now : Nat)
    (comm : List Nat) : Option FlowRecord :=
  let sport := udph.source
  let dport := udph.dest
  let dport_key := bpf_htons dport
  let flow_key : Ipv4FlowKey :=
    match udp_port_binding dport_key with
    | some _ =>
      { saddr := iph.saddr
        daddr := iph.daddr
        direction := FlowDirection.passive
        lport := dport
        l4_proto := IPPROTO_UDP }
    | none =>
      { saddr := iph.daddr
        daddr := iph.saddr
        direction := FlowDirection.active
        lport := sport
        l4_proto := IPPROTO_UDP }
  reserved.map (fun r => insert_udp_flows r now pid flow_key comm)

/-- Modelled from the spec: the bind-tracking state machine lives in
`port_binding.h`, which is not under src/. Per spec section 4.2, a tracked
bind inserts an entry for the bound local port into `udp_port_binding`
(state ADDING, committed to BOUND on bind success); the userspace
initializer likewise inserts each already-bound port with state BOUND. The
key convention is fixed by the two lookups present in
`conntracer_streaming.bpf.c` (`skc_num` on the send path, `bpf_htons` of
the header port on the receive path): the port in host byte order. -/
def bindPort (m : Nat → Option Nat) (port : Nat) (st : Nat) :
    Nat → Option Nat :=
  fun k => if k = port then some st else m k

/-! Userspace aggregating tracer (`src/tracer.go`) -/

/-- Struct `aggregated_flow_tuple` (the key of the `flows` and `flow_stats`
maps of the aggregating variant). -/
structure AggrFlowTuple where
  saddr : Nat
  daddr : Nat
  lport : Nat
  direction : Nat
  l4_proto : Nat
deriving DecidableEq

/-- Struct `aggregated_flow` (the value drained from the `flows` map), with
the fields `dumpAggrFlows` reads. -/
structure CAggregatedFlow where
  saddr : Nat
  daddr : Nat
  task : List Nat
  lport : Nat
  direction : Nat
  l4_proto : Nat
  pid : Nat
deriving DecidableEq

/-- Struct `aggregated_flow_stat` (the value drained from `flow_stats`). -/
structure CAggregatedFlowStat where
  ts_us : Nat
  sent_bytes : Nat
  recv_bytes : Nat
deriving DecidableEq

/-- Go `AggrFlowStat` (timestamp modelled as the `time.Unix` seconds
argument `ts_us*1000*1000`). -/
structure AggrFlowStat where
  timestamp : Nat
  sentBytes : Nat
  recvBytes : Nat
deriving DecidableEq

/-- The Go zero value of `AggrFlowStat`, used when a flow key has no stat
entry. -/
def zeroAggrFlowStat : AggrFlowStat :=
  { timestamp := 0, sentBytes := 0, recvBytes := 0 }

/-- Go `flowDirectionFrom`: decode the C enum value, falling back to
`FlowUnknown`. C enum values: `FLOW_UNKNOWN = 1`, `FLOW_ACTIVE = 2`,
`FLOW_PASSIVE = 3` (mirrored by the Go constants `iota + 1`). -/
def flowDirectionFrom (x : Nat) : FlowDirection :=
  if x = 1 then FlowDirection.unknown
  else if x = 2 then FlowDirection.active
  else if x = 3 then FlowDirection.passive
  else FlowDirection.unknown

/-- Go `C.GoString` on a fixed-size byte array: the bytes before the first
NUL. -/
def goString (bytes : List Nat) : List Nat :=
  bytes.takeWhile (fun b => b ≠ 0)

/-- Go `Flow` (the host-side flow type; addresses kept numeric, the process
name as its byte list). -/
structure GoFlow where
  sAddr : Nat
  dAddr : Nat
  processName : List Nat
  lPort : Nat
  direction : FlowDirection
  lastPID : Nat
  l4Proto : Nat
  stat : Option AggrFlowStat
deriving DecidableEq

/-- First-match association-list lookup (a Go map read `m[k]`). -/
def alookup {α : Type} [DecidableEq α] {β : Type} :
    List (α × β) → α → Option β
  | [], _ => none
  | (k, v) :: l, k2 => if k2 = k then some v else alookup l k2

/-- Go map assignment `m[k] = v`: overwrite the existing entry for `k`, or
append a new one. -/
def assocInsert {α : Type} [DecidableEq α] {β : Type}
    (l : List (α × β)) (k : α) (v : β) : List (α × β) :=
  if (alookup l k).isSome then
    l.map (fun p => if p.1 = k then (k, v) else p)
  else
    l ++ [(k, v)]

/-- The Go map-building loops of `dumpAggrFlows` / `dumpAggrFlowStats`:
fold the drained (key, value) array into a map, converting each value. -/
def buildAssoc {α : Type} [DecidableEq α] {β γ : Type} (f : γ → β)
    (drained : List (α × γ)) : List (α × β) :=
  drained.foldl (fun m p => assocInsert m p.1 (f p.2)) []

/-- The per-entry conversion in `dumpAggrFlows`: decode addresses, task
name, direction and PID; `L4Proto` is `(uint8)(ntohs(l4_proto))`; `Stat` is
left nil. -/
def aggrFlowToGoFlow (v : CAggregatedFlow) : GoFlow :=
  { sAddr := v.saddr
    dAddr := v.daddr
    processName := goString v.task
    lPort := v.lport
    direction := flowDirectionFrom v.direction
    lastPID := v.pid
    l4Proto := (ntohs v.l4_proto) % 256
    stat := none }

/-- Go `dumpAggrFlows` on the drained (key, value) array. -/
def dumpAggrFlows (drained : List (AggrFlowTuple × CAggregatedFlow)) :
    List (AggrFlowTuple × GoFlow) :=
  buildAssoc aggrFlowToGoFlow drained

/-- The per-entry conversion in `dumpAggrFlowStats`. -/
def statToAggrFlowStat (s : CAggregatedFlowStat) : AggrFlowStat :=
  { timestamp := s.ts_us * 1000 * 1000
    sentBytes := s.sent_bytes
    recvBytes := s.recv_bytes }

/-- Go `dumpAggrFlowStats` on the drained (key, value) array. -/
def dumpAggrFlowStats (drained : List (AggrFlowTuple × CAggregatedFlowStat)) :
    List (AggrFlowTuple × AggrFlowStat) :=
  buildAssoc statToAggrFlowStat drained

/-- Set a Go `Flow`'s `Stat` pointer. -/
def setStat (f : GoFlow) (s : AggrFlowStat) : GoFlow :=
  { f with stat := some s }

/-- The merge loop of `DumpFlows`: every flow key is joined with its stat
entry; a missing stat entry becomes the zero `AggrFlowStat`. -/
def mergeFlows (flows : List (AggrFlowTuple × GoFlow))
    (stats : List (AggrFlowTuple × AggrFlowStat)) : List GoFlow :=
  flows.map (fun p =>
    match alookup stats p.1 with
    | some v => setStat p.2 v
    | none => setStat p.2 zeroAggrFlowStat)

/-- Go `Tracer.DumpFlows`, given the results of the two concurrent drains
(`dumpAggrFlows` and `dumpAggrFlowStats` inputs): an error in either drain
is returned, otherwise the merged list. -/
def DumpFlows
    (flowsRes : Except String (List (AggrFlowTuple × CAggregatedFlow)))
    (statsRes : Except String (List (AggrFlowTuple × CAggregatedFlowStat))) :
    Except String (List GoFlow) :=
  match flowsRes, statsRes with
  | Except.error e, _ => Except.error e
  | _, Except.error e => Except.error e
  | Except.ok fdr, Except.ok sdr =>
    Except.ok (mergeFlows (dumpAggrFlows fdr) (dumpAggrFlowStats sdr))

/-! The aggregating tracer polling loop (`pollFlows`) -/

/-- One wakeup of the `pollFlows` select loop: either the stop channel
fires, or the ticker fires with the outcome of `DumpFlows` and the user
callback (`none` = callback returned nil). -/
inductive PollEvent where
  | stopSignal
  | tick (dumpResult : Except String (List GoFlow))
      (cb : List GoFlow → Option String)

/-- The observable effect of one `pollFlows` wakeup. -/
structure TickEffect where
  exits : Bool
  passedToCallback : Option (List GoFlow)
  loggedDumpErr : Bool
  loggedCbErr : Bool
deriving DecidableEq

/-- One iteration of `pollFlows`: a stop signal returns; a tick calls
`DumpFlows`, logs any drain error (leaving `flows` nil), always invokes the
callback with the drained flows, and logs any callback error. -/
def pollFlowsStep : PollEvent → TickEffect
  | PollEvent.stopSignal =>
    { exits := true, passedToCallback := none
      loggedDumpErr := false, loggedCbErr := false }
  | PollEvent.tick d cb =>
    let flows := match d with
      | Except.ok fs => fs
      | Except.error _ => []
    { exits := false
      passedToCallback := some flows
      loggedDumpErr := match d with
        | Except.error _ => true
        | Except.ok _ => false
      loggedCbErr := (cb flows).isSome }

/-- The `pollFlows` loop over a sequence of wakeups: returns whether the
loop has exited. -/
def pollFlowsLoop : List PollEvent → Bool
  | [] => false
  | e :: rest =>
    if (pollFlowsStep e).exits then true else pollFlowsLoop rest

/-! Streaming tracer (`src/tracer_streaming.go`) -/

/-- Constant `syscall.EINTR`. -/
def EINTR : Int := 4

/-- Outcome of one wakeup of `TracerStreaming.Start`'s select loop. -/
inductive StreamOutcome where
  | continueLoop
  | stopOk
  | failWith (n : Int)
deriving DecidableEq

/-- One wakeup of `TracerStreaming.Start`: either the stop channel fires
(return nil) or the ticker fires and `ring_buffer__poll` returns `n`;
negative `n` equal to `-EINTR` is absorbed, any other negative `n` returns
an error, and non-negative `n` continues. -/
inductive StreamEvent where
  | stopSignal
  | tick (n : Int)

def startStreamingStep : StreamEvent → StreamOutcome
  | StreamEvent.stopSignal => StreamOutcome.stopOk
  | StreamEvent.tick n =>
    if n < 0 then
      if 0 - n = EINTR then StreamOutcome.continueLoop
      else StreamOutcome.failWith n
    else StreamOutcome.continueLoop

/-- The `Start` loop over a sequence of wakeups: the first non-continue
outcome ends the loop; an exhausted event list leaves it running. -/
def startStreamingLoop : List StreamEvent → Option StreamOutcome
  | [] => none
  | e :: rest =>
    match startStreamingStep e with
    | StreamOutcome.continueLoop => startStreamingLoop rest
    | o => some o

/-- The teardown actions `TracerStreaming.Close` can perform. -/
inductive TeardownOp where
  | closeStopChan
  | closeStatsFd
  | freeRingBuf
  | destroyBpfObj
deriving DecidableEq

/-- Go `TracerStreaming.Close`: close the stop channel; close the stats fd
when it is non-zero; free the ring buffer; destroy the BPF object — in that
source order. -/
def TracerStreaming_Close (statsFd : Int) : List TeardownOp :=
  [TeardownOp.closeStopChan] ++
    (if statsFd ≠ 0 then [TeardownOp.closeStatsFd] else []) ++
    [TeardownOp.freeRingBuf, TeardownOp.destroyBpfObj]

/-- Predicate: `a` occurs strictly before `b` in `l` (both occur). -/
def occursBefore (l : List TeardownOp) (a b : TeardownOp) : Prop :=
  a ∈ l ∧ b ∈ l ∧ l.indexOf a < l.indexOf b

instance (l : List TeardownOp) (a b : TeardownOp) :
    Decidable (occursBefore l a b) := by
  unfold occursBefore
  infer_instance

/-! Characterizations of the probe emissions (helper lemmas). -/

/-- Any record emitted by `tcp_v4_connect_ret` comes from a stored socket,
a zero syscall return and a successful reservation, and is the ACTIVE
`insert_flows` record for that socket. -/
theorem tcp_v4_connect_ret_emits (m : Nat → Option Sock) (tid pid : Nat)
    (ret : Int) (reserved : Option FlowRecord) (now : Nat) (comm : List Nat)
    (f : FlowRecord)
    (h : (tcp_v4_connect_ret m tid pid ret reserved now comm).2 = some f) :
    ∃ sk r, m tid = some sk ∧ ret = 0 ∧ reserved = some r ∧
      f = insert_flows r now pid sk sk.skc_dport FlowDirection.active comm := by
  cases hm : m tid with
  | none => simp [tcp_v4_connect_ret, hm] at h
  | some sk =>
    by_cases hr : ret = 0
    · cases reserved with
      | none => simp [tcp_v4_connect_ret, hm, hr] at h
      | some r =>
        simp only [tcp_v4_connect_ret, hm, hr, if_true, Option.map_some',
          Option.some.injEq] at h
        exact ⟨sk, r, rfl, hr, rfl, h.symm⟩
    · simp [tcp_v4_connect_ret, hm, hr] at h

/-- Any record emitted by `inet_csk_accept_ret` comes from a non-null
socket and a successful reservation, and is the PASSIVE `insert_flows`
record for that socket. -/
theorem inet_csk_accept_ret_emits (pid : Nat) (sk : Option Sock)
    (reserved : Option FlowRecord) (now : Nat) (comm : List Nat)
    (f : FlowRecord)
    (h : inet_csk_accept_ret pid sk reserved now comm = some f) :
    ∃ s r, sk = some s ∧ reserved = some r ∧
      f = insert_flows r now pid s s.skc_num FlowDirection.passive comm := by
  cases sk with
  | none => simp [inet_csk_accept_ret] at h
  | some s =>
    cases reserved with
    | none => simp [inet_csk_accept_ret] at h
    | some r =>
      simp only [inet_csk_accept_ret, Option.map_some', Option.some.injEq] at h
      exact ⟨s, r, rfl, rfl, h.symm⟩

/-- Any record emitted by `ip_make_skb` comes from a successful
reservation and is the PASSIVE record (port-binding hit on `skc_num`) or
the ACTIVE record (miss). -/
theorem ip_make_skb_emits (b : Nat → Option Nat) (pid : Nat) (sk : Sock)
    (flw4 : Flowi4) (reserved : Option FlowRecord) (now : Nat)
    (comm : List Nat) (f : FlowRecord)
    (h : ip_make_skb b pid sk flw4 reserved now comm = some f) :
    ∃ r, reserved = some r ∧
      ((∃ st, b sk.skc_num = some st ∧
          f = insert_udp_flows r now pid
            { saddr := flw4.daddr, daddr := flw4.saddr
              direction := FlowDirection.passive
              lport := bpf_htons sk.skc_num
              l4_proto := IPPROTO_UDP } comm) ∨
        (b sk.skc_num = none ∧
          f = insert_udp_flows r now pid
            { saddr := flw4.saddr, daddr := flw4.daddr
              direction := FlowDirection.active
              lport := sk.skc_dport
              l4_proto := IPPROTO_UDP } comm)) := by
  cases reserved with
  | none => simp [ip_make_skb] at h
  | some r =>
    refine ⟨r, rfl, ?_⟩
    cases hb : b sk.skc_num with
    | some st =>
      left
      simp only [ip_make_skb, hb, Option.map_some', Option.some.injEq] at h
      exact ⟨st, rfl, h.symm⟩
    | none =>
      right
      simp only [ip_make_skb, hb, Option.map_some', Option.some.injEq] at h
      exact ⟨rfl, h.symm⟩

/-- Any record emitted by `skb_consume_udp` comes from a successful
reservation and is the PASSIVE record (port-binding hit on the
byte-swapped header destination port) or the ACTIVE record (miss). -/
theorem skb_consume_udp_emits (b : Nat → Option Nat) (pid : Nat)
    (udph : UdpHdr) (iph : IpHdr) (reserved : Option FlowRecord) (now : Nat)
    (comm : List Nat) (f : FlowRecord)
    (h : skb_consume_udp b pid udph iph reserved now comm = some f) :
    ∃ r, reserved = some r ∧
      ((∃ st, b (bpf_htons udph.dest) = some st ∧
          f = insert_udp_flows r now pid
            { saddr := iph.saddr, daddr := iph.daddr
              direction := FlowDirection.passive
              lport := udph.dest
              l4_proto := IPPROTO_UDP } comm) ∨
        (b (bpf_htons udph.dest) = none ∧
          f = insert_udp_flows r now pid
            { saddr := iph.daddr, daddr := iph.saddr
              direction := FlowDirection.active
              lport := udph.source
              l4_proto := IPPROTO_UDP } comm)) := by
  cases reserved with
  | none => simp [skb_consume_udp] at h
  | some r =>
    refine ⟨r, rfl, ?_⟩
    cases hb : b (bpf_htons udph.dest) with
    | some st =>
      left
      simp only [skb_consume_udp, hb, Option.map_some', Option.some.injEq] at h
      exact ⟨st, rfl, h.symm⟩
    | none =>
      right
      simp only [skb_consume_udp, hb, Option.map_some', Option.some.injEq] at h
      exact ⟨rfl, h.symm⟩

/-- The record was emitted by the `tcp_v4_connect` return probe (at some
probe inputs). -/
def emittedByTcpConnect (f : FlowRecord) : Prop :=
  ∃ m tid pid ret reserved now comm,
    (tcp_v4_connect_ret m tid pid ret reserved now comm).2 = some f

/-- The record was emitted by the `inet_csk_accept` return probe (at some
probe inputs). -/
def emittedByTcpAccept (f : FlowRecord) : Prop :=
  ∃ pid sk reserved now comm,
    inet_csk_accept_ret pid sk reserved now comm = some f

/-- C1: for every flow record emitted by the kernel TCP probes, the
direction is ACTIVE iff it was emitted from the `tcp_v4_connect` return
probe and PASSIVE iff it was emitted from the `inet_csk_accept` return
probe; no TCP emission carries direction UNKNOWN. -/
theorem tcp_direction_iff_probe (f : FlowRecord)
    (hf : emittedByTcpConnect f ∨ emittedByTcpAccept f) :
    (f.direction = FlowDirection.active ↔ emittedByTcpConnect f) ∧
    (f.direction = FlowDirection.passive ↔ emittedByTcpAccept f) ∧
    f.direction ≠ FlowDirection.unknown := by
  have hc : ∀ g, emittedByTcpConnect g → g.direction = FlowDirection.active := by
    rintro g ⟨m, tid, pid, ret, reserved, now, comm, h⟩
    obtain ⟨sk, r, -, -, -, rfl⟩ :=
      tcp_v4_connect_ret_emits m tid pid ret reserved now comm g h
    rfl
  have ha : ∀ g, emittedByTcpAccept g → g.direction = FlowDirection.passive := by
    rintro g ⟨pid, sk, reserved, now, comm, h⟩
    obtain ⟨s, r, -, -, rfl⟩ :=
      inet_csk_accept_ret_emits pid sk reserved now comm g h
    rfl
  rcases hf with hf | hf
  · have hd := hc f hf
    refine ⟨⟨fun _ => hf, fun _ => hd⟩, ⟨fun hp => ?_, fun hA => ha f hA⟩, ?_⟩
    · exact absurd (hd.symm.trans hp) (by decide)
    · rw [hd]; decide
  · have hd := ha f hf
    refine ⟨⟨fun hA => ?_, fun hA => absurd (hd.symm.trans (hc f hA)) (by decide)⟩,
      ⟨fun _ => hf, fun _ => hd⟩, ?_⟩
    · exact absurd (hd.symm.trans hA) (by decide)
    · rw [hd]; decide

/-- Sample socket used by the concrete witnesses. -/
def sampleSock : Sock :=
  { skc_rcv_saddr := 16777343, skc_daddr := 16777343
    skc_dport := 2304, skc_num := 45000 }

/-- Sample reserved ring-buffer record with leftover content (`l4_proto`
still holds 17 from an earlier UDP record). -/
def sampleReserved : FlowRecord :=
  { ts_us := 0, saddr := 0, daddr := 0, lport := 0
    direction := FlowDirection.unknown, l4_proto := 17, pid := 0, task := [] }

/-- Sample `tcp_connect_sockets` map holding `sampleSock` under thread 5. -/
def sampleConnectMap : Nat → Option Sock :=
  fun t => if t = 5 then some sampleSock else none

/-- The record emitted by `tcp_v4_connect_ret` at the sample inputs. -/
def sampleConnectFlow : FlowRecord :=
  insert_flows sampleReserved 123000 7 sampleSock sampleSock.skc_dport
    FlowDirection.active [99]

/-- Witness for C1 at the sample connect emission. -/
theorem tcp_direction_iff_probe_witness :
    (sampleConnectFlow.direction = FlowDirection.active ↔
      emittedByTcpConnect sampleConnectFlow) ∧
    (sampleConnectFlow.direction = FlowDirection.passive ↔
      emittedByTcpAccept sampleConnectFlow) ∧
    sampleConnectFlow.direction ≠ FlowDirection.unknown :=
  tcp_direction_iff_probe sampleConnectFlow
    (Or.inl ⟨sampleConnectMap, 5, 7, 0, some sampleReserved, 123000, [99], by decide⟩)

/-- C5: on the `tcp_v4_connect` return probe, whenever the thread's socket
entry exists in the in-flight connect map, the probe deletes that entry
before returning, regardless of whether the connect syscall succeeded; and
when the syscall's return value is non-zero, no flow record is emitted. -/
theorem connect_ret_cleans_up (m : Nat → Option Sock) (tid pid : Nat)
    (ret : Int) (reserved : Option FlowRecord) (now : Nat) (comm : List Nat)
    (sk : Sock) (hm : m tid = some sk) :
    (tcp_v4_connect_ret m tid pid ret reserved now comm).1 tid = none ∧
    (ret ≠ 0 → (tcp_v4_connect_ret m tid pid ret reserved now comm).2 = none) := by
  by_cases hr : ret = 0 <;> simp [tcp_v4_connect_ret, hm, hr]

/-- Witness for C5: concrete failed connect (return value 1) whose entry
is deleted and which emits nothing. -/
theorem connect_ret_cleans_up_witness :
    (tcp_v4_connect_ret sampleConnectMap 5 7 1 (some sampleReserved) 123000 [99]).1 5 = none ∧
    (tcp_v4_connect_ret sampleConnectMap 5 7 1 (some sampleReserved) 123000 [99]).2 = none := by
  have h := connect_ret_cleans_up sampleConnectMap 5 7 1 (some sampleReserved)
    123000 [99] sampleSock (by decide)
  exact ⟨h.1, h.2 (by decide)⟩

/-- C4 counterexample: at a concrete connect emission whose reserved
ring-buffer record held leftover content 17 in `l4_proto`, the emitted
record's L4-protocol field is 17, not 6: `insert_flows` never writes
`l4_proto`. -/
theorem tcp_l4_proto_cex :
    (tcp_v4_connect_ret sampleConnectMap 5 7 0 (some sampleReserved) 123000 [99]).2.map
      FlowRecord.l4_proto = some 17 ∧ (17 : Nat) ≠ IPPROTO_TCP := by decide

/-- C4 amended: records emitted by the TCP probes (connect return and
accept return) keep the `l4_proto` content of the reserved ring-buffer
record; the probes do not write the field (TCP is implied by the probe,
not stored). -/
theorem tcp_l4_proto_unwritten :
    (∀ m tid pid ret r now comm f,
        (tcp_v4_connect_ret m tid pid ret (some r) now comm).2 = some f →
        f.l4_proto = r.l4_proto) ∧
    (∀ pid sk r now comm f,
        inet_csk_accept_ret pid sk (some r) now comm = some f →
        f.l4_proto = r.l4_proto) := by
  constructor
  · intro m tid pid ret r now comm f h
    obtain ⟨sk, r2, -, -, hres, rfl⟩ :=
      tcp_v4_connect_ret_emits m tid pid ret (some r) now comm f h
    obtain rfl : r = r2 := Option.some_inj.mp hres
    rfl
  · intro pid sk r now comm f h
    obtain ⟨s, r2, -, hres, rfl⟩ :=
      inet_csk_accept_ret_emits pid sk (some r) now comm f h
    obtain rfl : r = r2 := Option.some_inj.mp hres
    rfl

/-- Witness for the amended C4 at the sample connect emission. -/
theorem tcp_l4_proto_unwritten_witness :
    sampleConnectFlow.l4_proto = sampleReserved.l4_proto :=
  tcp_l4_proto_unwritten.1 sampleConnectMap 5 7 0 sampleReserved 123000 [99]
    sampleConnectFlow (by decide)

/-- C2: for every UDP flow record emitted on the send path (`ip_make_skb`)
or the receive path (`skb_consume_udp`), the direction is PASSIVE iff the
lookup of the local port in `udp_port_binding` succeeds and ACTIVE iff it
fails; and for every emitted UDP flow whose local port was inserted into
the port-binding table before the emission, the direction is PASSIVE. -/
theorem udp_direction_by_port_binding :
    (∀ b pid sk flw4 reserved now comm f,
        ip_make_skb b pid sk flw4 reserved now comm = some f →
        ((f.direction = FlowDirection.passive ↔ (b sk.skc_num).isSome) ∧
         (f.direction = FlowDirection.active ↔ b sk.skc_num = none))) ∧
    (∀ b pid udph iph reserved now comm f,
        skb_consume_udp b pid udph iph reserved now comm = some f →
        ((f.direction = FlowDirection.passive ↔ (b (bpf_htons udph.dest)).isSome) ∧
         (f.direction = FlowDirection.active ↔ b (bpf_htons udph.dest) = none))) ∧
    (∀ b p st pid sk flw4 reserved now comm f,
        sk.skc_num = p →
        ip_make_skb (bindPort b p st) pid sk flw4 reserved now comm = some f →
        f.direction = FlowDirection.passive) ∧
    (∀ b p st pid udph iph reserved now comm f,
        bpf_htons udph.dest = p →
        skb_consume_udp (bindPort b p st) pid udph iph reserved now comm = some f →
        f.direction = FlowDirection.passive) := by
  refine ⟨?_, ?_, ?_, ?_⟩
  · intro b pid sk flw4 reserved now comm f h
    obtain ⟨r, -, hcase⟩ := ip_make_skb_emits b pid sk flw4 reserved now comm f h
    rcases hcase with ⟨st, hb, rfl⟩ | ⟨hb, rfl⟩ <;>
      rw [hb] <;> constructor <;> simp [insert_udp_flows]
  · intro b pid udph iph reserved now comm f h
    obtain ⟨r, -, hcase⟩ := skb_consume_udp_emits b pid udph iph reserved now comm f h
    rcases hcase with ⟨st, hb, rfl⟩ | ⟨hb, rfl⟩ <;>
      rw [hb] <;> constructor <;> simp [insert_udp_flows]
  · intro b p st pid sk flw4 reserved now comm f hp h
    obtain ⟨r, -, hcase⟩ :=
      ip_make_skb_emits (bindPort b p st) pid sk flw4 reserved now comm f h
    rcases hcase with ⟨st2, -, rfl⟩ | ⟨hb, -⟩
    · rfl
    · simp [bindPort, hp] at hb
  · intro b p st pid udph iph reserved now comm f hp h
    obtain ⟨r, -, hcase⟩ :=
      skb_consume_udp_emits (bindPort b p st) pid udph iph reserved now comm f h
    rcases hcase with ⟨st2, -, rfl⟩ | ⟨hb, -⟩
    · rfl
    · simp [bindPort, hp] at hb

/-- Sample `udp_port_binding` table with port 45000 bound (state 1). -/
def sampleBinding : Nat → Option Nat :=
  fun k => if k = 45000 then some 1 else none

/-- Sample `flowi4` addresses. -/
def sampleFlw4 : Flowi4 := { saddr := 11, daddr := 22 }

/-- The record emitted by `ip_make_skb` at the sample inputs (port-binding
hit on local port 45000). -/
def sampleUdpFlow : FlowRecord :=
  insert_udp_flows sampleReserved 1000 7
    { saddr := sampleFlw4.daddr, daddr := sampleFlw4.saddr
      direction := FlowDirection.passive
      lport := bpf_htons sampleSock.skc_num
      l4_proto := IPPROTO_UDP } [97]

/-- Witness for C2 at the sample UDP send emission. -/
theorem udp_direction_by_port_binding_witness :
    (sampleUdpFlow.direction = FlowDirection.passive ↔
      (sampleBinding sampleSock.skc_num).isSome) ∧
    (sampleUdpFlow.direction = FlowDirection.active ↔
      sampleBinding sampleSock.skc_num = none) :=
  udp_direction_by_port_binding.1 sampleBinding 7 sampleSock sampleFlw4
    (some sampleReserved) 1000 [97] sampleUdpFlow (by decide)

/-- Sample `udp_port_binding` table with port 1 bound. -/
def sampleBindingOne : Nat → Option Nat :=
  fun k => if k = 1 then some 1 else none

/-- Sample socket whose local port (`skc_num`, host byte order) is 1. -/
def sockNumOne : Sock :=
  { skc_rcv_saddr := 0, skc_daddr := 0, skc_dport := 2304, skc_num := 1 }

/-- C3 counterexample: a concrete `ip_make_skb` emission with local port 1
bound is PASSIVE but stores listening port 256 = htons(1), which differs
from the local port 1. -/
theorem lport_server_side_cex :
    (ip_make_skb sampleBindingOne 7 sockNumOne sampleFlw4 (some sampleReserved)
      1000 [97]).map FlowRecord.direction = some FlowDirection.passive ∧
    (ip_make_skb sampleBindingOne 7 sockNumOne sampleFlw4 (some sampleReserved)
      1000 [97]).map FlowRecord.lport = some 256 ∧
    sockNumOne.skc_num = 1 ∧ (256 : Nat) ≠ 1 := by decide

/-- C3 amended: the listening-port field holds the server-side port as the
probe read it: for ACTIVE records the remote port (`skc_dport`, or the
header source port); for PASSIVE records the local port — `skc_num` on the
TCP accept path, the header destination port on the UDP receive path, and
`bpf_htons(skc_num)` (the local port converted to network byte order) on
the UDP send path. -/
theorem lport_server_side_amended :
    (∀ m tid pid ret reserved now comm sk f,
        m tid = some sk →
        (tcp_v4_connect_ret m tid pid ret reserved now comm).2 = some f →
        f.direction = FlowDirection.active ∧ f.lport = sk.skc_dport) ∧
    (∀ pid sk reserved now comm f,
        inet_csk_accept_ret pid (some sk) reserved now comm = some f →
        f.direction = FlowDirection.passive ∧ f.lport = sk.skc_num) ∧
    (∀ b pid sk flw4 reserved now comm f,
        ip_make_skb b pid sk flw4 reserved now comm = some f →
        (f.direction = FlowDirection.active → f.lport = sk.skc_dport) ∧
        (f.direction = FlowDirection.passive → f.lport = bpf_htons sk.skc_num)) ∧
    (∀ b pid udph iph reserved now comm f,
        skb_consume_udp b pid udph iph reserved now comm = some f →
        (f.direction = FlowDirection.active → f.lport = udph.source) ∧
        (f.direction = FlowDirection.passive → f.lport = udph.dest)) := by
  refine ⟨?_, ?_, ?_, ?_⟩
  · intro m tid pid ret reserved now comm sk f hm h
    obtain ⟨sk2, r, hm2, -, -, rfl⟩ :=
      tcp_v4_connect_ret_emits m tid pid ret reserved now comm f h
    obtain rfl : sk = sk2 := Option.some_inj.mp (hm.symm.trans hm2)
    exact ⟨rfl, rfl⟩
  · intro pid sk reserved now comm f h
    obtain ⟨s, r, hs, -, rfl⟩ :=
      inet_csk_accept_ret_emits pid (some sk) reserved now comm f h
    obtain rfl : sk = s := Option.some_inj.mp hs
    exact ⟨rfl, rfl⟩
  · intro b pid sk flw4 reserved now comm f h
    obtain ⟨r, -, hcase⟩ := ip_make_skb_emits b pid sk flw4 reserved now comm f h
    rcases hcase with ⟨st, -, rfl⟩ | ⟨-, rfl⟩ <;>
      constructor <;> intro hd <;> simp_all [insert_udp_flows]
  · intro b pid udph iph reserved now comm f h
    obtain ⟨r, -, hcase⟩ := skb_consume_udp_emits b pid udph iph reserved now comm f h
    rcases hcase with ⟨st, -, rfl⟩ | ⟨-, rfl⟩ <;>
      constructor <;> intro hd <;> simp_all [insert_udp_flows]

/-- The record emitted by `inet_csk_accept_ret` at the sample inputs. -/
def sampleAcceptFlow : FlowRecord :=
  insert_flows sampleReserved 123000 7 sampleSock sampleSock.skc_num
    FlowDirection.passive [99]

/-- Witness for the amended C3 at the sample accept emission. -/
theorem lport_server_side_amended_witness :
    sampleAcceptFlow.direction = FlowDirection.passive ∧
    sampleAcceptFlow.lport = sampleSock.skc_num :=
  lport_server_side_amended.2.1 7 sampleSock (some sampleReserved) 123000 [99]
    sampleAcceptFlow (by decide)

/-! Association-list lemmas for the Go map model. -/

theorem alookup_isSome_iff {α : Type} [DecidableEq α] {β : Type}
    (l : List (α × β)) (k : α) :
    (alookup l k).isSome ↔ k ∈ l.map Prod.fst := by
  induction l with
  | nil => simp [alookup]
  | cons p l ih =>
    obtain ⟨k1, v1⟩ := p
    by_cases hk : k = k1 <;> simp [alookup, hk, ih]

theorem alookup_mem {α : Type} [DecidableEq α] {β : Type}
    (l : List (α × β)) (k : α) (v : β) (h : alookup l k = some v) :
    (k, v) ∈ l := by
  induction l with
  | nil => simp [alookup] at h
  | cons p l ih =>
    obtain ⟨k1, v1⟩ := p
    by_cases hk : k = k1
    · subst hk
      simp only [alookup, if_true] at h
      obtain rfl : v1 = v := Option.some_inj.mp h
      exact List.mem_cons_self _ _
    · simp only [alookup, if_neg hk] at h
      exact List.mem_cons_of_mem _ (ih h)

theorem map_overwrite_keys {α : Type} [DecidableEq α] {β : Type}
    (l : List (α × β)) (k : α) (v : β) :
    (l.map (fun p => if p.1 = k then (k, v) else p)).map Prod.fst =
      l.map Prod.fst := by
  induction l with
  | nil => rfl
  | cons p l ih =>
    obtain ⟨k1, v1⟩ := p
    by_cases hk : k1 = k
    · subst hk; simp [ih]
    · simp [hk, ih]

theorem assocInsert_keys {α : Type} [DecidableEq α] {β : Type}
    (l : List (α × β)) (k : α) (v : β) :
    (assocInsert l k v).map Prod.fst =
      if (alookup l k).isSome then l.map Prod.fst
      else l.map Prod.fst ++ [k] := by
  unfold assocInsert
  by_cases h : (alookup l k).isSome
  · rw [if_pos h, if_pos h, map_overwrite_keys]
  · rw [if_neg h, if_neg h]
    simp

theorem assocInsert_keys_nodup {α : Type} [DecidableEq α] {β : Type}
    (l : List (α × β)) (k : α) (v : β)
    (h : (l.map Prod.fst).Nodup) :
    ((assocInsert l k v).map Prod.fst).Nodup := by
  rw [assocInsert_keys]
  by_cases hs : (alookup l k).isSome
  · simpa [hs] using h
  · have hk : k ∉ l.map Prod.fst :=
      fun hm => hs ((alookup_isSome_iff l k).mpr hm)
    simp [hs, List.nodup_append, h, hk]

theorem assocInsert_keys_toFinset {α : Type} [DecidableEq α] {β : Type}
    (l : List (α × β)) (k : α) (v : β) :
    ((assocInsert l k v).map Prod.fst).toFinset =
      (l.map Prod.fst).toFinset ∪ {k} := by
  rw [assocInsert_keys]
  by_cases hs : (alookup l k).isSome
  · have hk : k ∈ (l.map Prod.fst).toFinset :=
      List.mem_toFinset.mpr ((alookup_isSome_iff l k).mp hs)
    rw [if_pos hs]
    exact (Finset.union_eq_left.mpr (Finset.singleton_subset_iff.mpr hk)).symm
  · rw [if_neg hs]
    simp

theorem buildAssoc_go_keys {α : Type} [DecidableEq α] {β γ : Type}
    (f : γ → β) (dr : List (α × γ)) :
    ∀ acc : List (α × β), (acc.map Prod.fst).Nodup →
      ((dr.foldl (fun m p => assocInsert m p.1 (f p.2)) acc).map Prod.fst).Nodup ∧
      ((dr.foldl (fun m p => assocInsert m p.1 (f p.2)) acc).map Prod.fst).toFinset =
        (acc.map Prod.fst).toFinset ∪ (dr.map Prod.fst).toFinset := by
  induction dr with
  | nil => intro acc h; simp [h]
  | cons p dr ih =>
    intro acc h
    obtain ⟨hn, hf⟩ := ih (assocInsert acc p.1 (f p.2))
      (assocInsert_keys_nodup acc p.1 (f p.2) h)
    refine ⟨by simpa using hn, ?_⟩
    simp only [List.foldl_cons]
    rw [hf, assocInsert_keys_toFinset]
    simp only [List.map_cons, List.toFinset_cons, Finset.insert_eq]
    rw [Finset.union_assoc]

theorem buildAssoc_keys_nodup {α : Type} [DecidableEq α] {β γ : Type}
    (f : γ → β) (dr : List (α × γ)) :
    ((buildAssoc f dr).map Prod.fst).Nodup :=
  (buildAssoc_go_keys f dr [] (by simp)).1

theorem buildAssoc_keys_toFinset {α : Type} [DecidableEq α] {β γ : Type}
    (f : γ → β) (dr : List (α × γ)) :
    ((buildAssoc f dr).map Prod.fst).toFinset = (dr.map Prod.fst).toFinset := by
  have h := (buildAssoc_go_keys f dr [] (by simp)).2
  simpa [buildAssoc] using h

theorem buildAssoc_length {α : Type} [DecidableEq α] {β γ : Type}
    (f : γ → β) (dr : List (α × γ)) :
    (buildAssoc f dr).length = (dr.map Prod.fst).toFinset.card := by
  have h1 := buildAssoc_keys_nodup f dr
  have h2 := buildAssoc_keys_toFinset f dr
  calc (buildAssoc f dr).length
      = ((buildAssoc f dr).map Prod.fst).length := by simp
    _ = ((buildAssoc f dr).map Prod.fst).toFinset.card :=
        (List.toFinset_card_of_nodup h1).symm
    _ = ((dr.map Prod.fst).toFinset).card := by rw [h2]

/-- C10: stat entries drained from `flow_stats` whose key matches no
drained flow are silently discarded: the merged list's length equals the
number of distinct drained flow keys, independent of the drained stat
entries. -/
theorem dumpFlows_length_distinct_keys
    (fdr : List (AggrFlowTuple × CAggregatedFlow))
    (sdr : List (AggrFlowTuple × CAggregatedFlowStat)) :
    ∃ merged, DumpFlows (Except.ok fdr) (Except.ok sdr) = Except.ok merged ∧
      merged.length = (fdr.map Prod.fst).toFinset.card := by
  refine ⟨mergeFlows (dumpAggrFlows fdr) (dumpAggrFlowStats sdr), rfl, ?_⟩
  rw [mergeFlows, List.length_map]
  exact buildAssoc_length aggrFlowToGoFlow fdr

/-- C6: `DumpFlows` returns, for every key drained from the flows map, one
flow whose `Stat` equals the stat entry drained under the same
aggregated-flow-tuple key when such an entry exists, and the all-zero
`AggrFlowStat` when no stat entry exists for that key. -/
theorem dumpFlows_joins_stats
    (fdr : List (AggrFlowTuple × CAggregatedFlow))
    (sdr : List (AggrFlowTuple × CAggregatedFlowStat))
    (k : AggrFlowTuple) (hk : k ∈ fdr.map Prod.fst) :
    ∃ fl merged, DumpFlows (Except.ok fdr) (Except.ok sdr) = Except.ok merged ∧
      alookup (dumpAggrFlows fdr) k = some fl ∧
      (∀ s, alookup (dumpAggrFlowStats sdr) k = some s → setStat fl s ∈ merged) ∧
      (alookup (dumpAggrFlowStats sdr) k = none →
        setStat fl zeroAggrFlowStat ∈ merged) := by
  have hks : k ∈ (dumpAggrFlows fdr).map Prod.fst := by
    have h2 := buildAssoc_keys_toFinset aggrFlowToGoFlow fdr
    have h3 : k ∈ ((dumpAggrFlows fdr).map Prod.fst).toFinset := by
      show k ∈ ((buildAssoc aggrFlowToGoFlow fdr).map Prod.fst).toFinset
      rw [h2]
      exact List.mem_toFinset.mpr hk
    exact List.mem_toFinset.mp h3
  obtain ⟨fl, hfl⟩ : ∃ fl, alookup (dumpAggrFlows fdr) k = some fl :=
    Option.isSome_iff_exists.mp ((alookup_isSome_iff _ k).mpr hks)
  have hmem : (k, fl) ∈ dumpAggrFlows fdr := alookup_mem _ _ _ hfl
  refine ⟨fl, mergeFlows (dumpAggrFlows fdr) (dumpAggrFlowStats sdr), rfl, hfl,
    ?_, ?_⟩
  · intro s hs
    rw [mergeFlows]
    refine List.mem_map.mpr ⟨(k, fl), hmem, ?_⟩
    simp [hs]
  · intro hs
    rw [mergeFlows]
    refine List.mem_map.mpr ⟨(k, fl), hmem, ?_⟩
    simp [hs]

/-- Sample aggregated-flow tuple for the C6 witness. -/
def sampleTuple : AggrFlowTuple :=
  { saddr := 1, daddr := 2, lport := 80, direction := 2, l4_proto := 6 }

/-- Sample drained aggregated-flow value for the C6 witness. -/
def sampleCAggrFlow : CAggregatedFlow :=
  { saddr := 1, daddr := 2, task := [97, 0, 98], lport := 80
    direction := 2, l4_proto := 6, pid := 42 }

/-- Witness for C6: one drained flow key and no drained stats; the merged
flow carries the zero stat. -/
theorem dumpFlows_joins_stats_witness :
    ∃ fl merged,
      DumpFlows (Except.ok [(sampleTuple, sampleCAggrFlow)]) (Except.ok []) =
        Except.ok merged ∧
      alookup (dumpAggrFlows [(sampleTuple, sampleCAggrFlow)]) sampleTuple = some fl ∧
      (∀ s, alookup (dumpAggrFlowStats []) sampleTuple = some s →
        setStat fl s ∈ merged) ∧
      (alookup (dumpAggrFlowStats []) sampleTuple = none →
        setStat fl zeroAggrFlowStat ∈ merged) :=
  dumpFlows_joins_stats [(sampleTuple, sampleCAggrFlow)] [] sampleTuple (by decide)

/-- C7: in the aggregating tracer's polling loop, a tick on which the
drain returns an error does not terminate the loop and passes no flow
records to the callback (the callback is invoked with the nil list); a
callback error never terminates the loop; the loop exits only via the
stop signal. -/
theorem pollFlows_per_tick_errors_nonfatal :
    (∀ e cb, pollFlowsStep (PollEvent.tick (Except.error e) cb) =
      { exits := false, passedToCallback := some ([] : List GoFlow)
        loggedDumpErr := true, loggedCbErr := (cb []).isSome }) ∧
    (∀ fs cb, (pollFlowsStep (PollEvent.tick (Except.ok fs) cb)).exits = false) ∧
    (∀ evs, pollFlowsLoop evs = true ↔ PollEvent.stopSignal ∈ evs) := by
  refine ⟨fun e cb => rfl, fun fs cb => rfl, fun evs => ?_⟩
  induction evs with
  | nil => simp [pollFlowsLoop]
  | cons e rest ih =>
    cases e with
    | stopSignal => simp [pollFlowsLoop, pollFlowsStep]
    | tick d cb => simp [pollFlowsLoop, pollFlowsStep, ih]

/-- Witness for C7: the loop exits on a concrete stop event. -/
theorem pollFlows_per_tick_errors_nonfatal_witness :
    pollFlowsLoop [PollEvent.stopSignal] = true :=
  (pollFlows_per_tick_errors_nonfatal.2.2 [PollEvent.stopSignal]).mpr
    (List.mem_singleton.mpr rfl)

/-- C8: in the streaming tracer's `Start` loop, a negative poll return
equal to `-EINTR` is absorbed and the loop continues; any other negative
return stops the loop with an error; non-negative returns continue. -/
theorem streaming_poll_eintr_absorbed :
    (∀ n : Int, n < 0 → n = -EINTR →
        startStreamingStep (StreamEvent.tick n) = StreamOutcome.continueLoop) ∧
    (∀ n : Int, n < 0 → n ≠ -EINTR →
        startStreamingStep (StreamEvent.tick n) = StreamOutcome.failWith n) ∧
    (∀ n : Int, 0 ≤ n →
        startStreamingStep (StreamEvent.tick n) = StreamOutcome.continueLoop) ∧
    (∀ evs, ∀ n : Int, n < 0 → n ≠ -EINTR →
        startStreamingLoop (StreamEvent.tick n :: evs) =
          some (StreamOutcome.failWith n)) ∧
    (∀ evs, ∀ n : Int, n = -EINTR ∨ 0 ≤ n →
        startStreamingLoop (StreamEvent.tick n :: evs) =
          startStreamingLoop evs) := by
  have hE : EINTR = 4 := rfl
  have habs : ∀ n : Int, n < 0 → n = -EINTR →
      startStreamingStep (StreamEvent.tick n) = StreamOutcome.continueLoop := by
    intro n hneg he
    subst he
    decide
  have hfail : ∀ n : Int, n < 0 → n ≠ -EINTR →
      startStreamingStep (StreamEvent.tick n) = StreamOutcome.failWith n := by
    intro n hneg hne
    have h1 : ¬(-n = EINTR) := by
      rw [hE]
      rw [hE] at hne
      omega
    simp [startStreamingStep, hneg, h1]
  have hpos : ∀ n : Int, 0 ≤ n →
      startStreamingStep (StreamEvent.tick n) = StreamOutcome.continueLoop := by
    intro n hp
    simp [startStreamingStep, not_lt.mpr hp]
  refine ⟨habs, hfail, hpos, ?_, ?_⟩
  · intro evs n hneg hne
    simp [startStreamingLoop, hfail n hneg hne]
  · intro evs n h
    rcases h with he | hp
    · by_cases hneg : n < 0
      · simp [startStreamingLoop, habs n hneg he]
      · simp [startStreamingLoop, hpos n (not_lt.mp hneg)]
    · simp [startStreamingLoop, hpos n hp]

/-- Witness for C8 at poll returns -4 (EINTR), -5 and 0. -/
theorem streaming_poll_eintr_absorbed_witness :
    startStreamingStep (StreamEvent.tick (-4)) = StreamOutcome.continueLoop ∧
    startStreamingStep (StreamEvent.tick (-5)) = StreamOutcome.failWith (-5) ∧
    startStreamingStep (StreamEvent.tick 0) = StreamOutcome.continueLoop :=
  ⟨streaming_poll_eintr_absorbed.1 (-4) (by decide) (by decide),
   streaming_poll_eintr_absorbed.2.1 (-5) (by decide) (by decide),
   streaming_poll_eintr_absorbed.2.2.1 0 (by decide)⟩

/-- C9 counterexample: with a non-zero stats fd, `TracerStreaming.Close`
does not perform ring buffer, BPF object, stats fd in that order — the
stats fd is closed first. -/
theorem close_order_cex :
    ¬(occursBefore (TracerStreaming_Close 1) TeardownOp.freeRingBuf
        TeardownOp.destroyBpfObj ∧
      occursBefore (TracerStreaming_Close 1) TeardownOp.destroyBpfObj
        TeardownOp.closeStatsFd) := by
  decide

/-- C9 amended: on teardown the ring buffer is freed before the BPF
object is destroyed, and the stats fd (when set) is closed first, before
the ring buffer is freed. -/
theorem close_order_amended (statsFd : Int) :
    occursBefore (TracerStreaming_Close statsFd) TeardownOp.freeRingBuf
      TeardownOp.destroyBpfObj ∧
    (statsFd ≠ 0 →
      occursBefore (TracerStreaming_Close statsFd) TeardownOp.closeStatsFd
        TeardownOp.freeRingBuf) := by
  by_cases h : statsFd = 0
  · subst h
    exact ⟨by decide, fun hc => absurd rfl hc⟩
  · have hl : TracerStreaming_Close statsFd =
        [TeardownOp.closeStopChan, TeardownOp.closeStatsFd,
         TeardownOp.freeRingBuf, TeardownOp.destroyBpfObj] := by
      simp [TracerStreaming_Close, h]
    rw [hl]
    exact ⟨by decide, fun _ => by decide⟩

/-- Witness for the amended C9 at stats fd 1. -/
theorem close_order_amended_witness :
    occursBefore (TracerStreaming_Close 1) TeardownOp.freeRingBuf
      TeardownOp.destroyBpfObj ∧
    occursBefore (TracerStreaming_Close 1) TeardownOp.closeStatsFd
      TeardownOp.freeRingBuf :=
  ⟨(close_order_amended 1).1, (close_order_amended 1).2 (by decide)⟩
